import Mathlib

/-!
Shallow embedding of the SiWx917 `PlatformManagerImpl` and its verified
properties.

Source: `src/platform/silabs/SiWx917/PlatformManagerImpl.cpp`.

Every function of that file is embedded as a pure Lean function.  Calls into
collaborators (key-value store, lwIP, clock, crypto, timer service, event
queue) are recorded in a call trace (`List Call`); the status each
collaborator reports is an input of the embedded function, so every theorem
quantifies over all behaviours of the collaborators.

Machine integers are natural numbers / integers with explicit wrap-around.
-/

namespace chip
namespace DeviceLayer

/-! ## Error codes and constants declared outside the translation unit -/

/-- A `CHIP_ERROR` is compared through its integer storage; it is embedded as that
integer. -/
abbrev CHIP_ERROR := Nat

/-- The `CHIP_NO_ERROR` value (integer storage 0). -/
def CHIP_NO_ERROR : CHIP_ERROR := 0

/-- The `CHIP_ERROR_NO_MEMORY` value, core error `0x0b`. -/
def CHIP_ERROR_NO_MEMORY : CHIP_ERROR := 0x0B

/-- The lwIP status type `err_t` is a signed integer. -/
abbrev err_t := Int

/-- The lwIP `ERR_OK` status. -/
def ERR_OK : err_t := 0

/-- Modelled from the spec: the constant `kSecondsPerHour` is declared outside
`PlatformManagerImpl.cpp`; the spec fixes the period of the operational-hours
timer to "one hour (3600 seconds)". -/
def kSecondsPerHour : Nat := 3600

/-- Width of `uint32_t`, `unsigned int`, `int` and `size_t` on the target
(32-bit ARM Cortex-M). -/
def UINT32_MOD : Nat := 2 ^ 32

/-- Width of `uint16_t`. -/
def UINT16_MOD : Nat := 2 ^ 16

/-- Conversion of an `unsigned int` value to `int` (twos complement,
32 bits). -/
def toInt32 (u : Nat) : Int :=
  if u % UINT32_MOD < 2 ^ 31 then ((u % UINT32_MOD : Nat) : Int)
  else ((u % UINT32_MOD : Nat) : Int) - (UINT32_MOD : Int)

/-! ## Call traces -/

/-- Timer callbacks handed to `SystemLayer().StartTimer`. -/
inductive TimerCallback where
  | UpdateOperationalHours
  deriving DecidableEq, Repr

/-- The uniform device event built by `HandleWFXSystemEvent`, restricted to the
fields the function touches: `Type`, `Platform.WFXSystemEvent.eventBase` and the
bytes of the union `Platform.WFXSystemEvent.data` (all members of the union
start at offset 0). -/
structure ChipDeviceEvent where
  type : Nat
  eventBase : Nat
  data : List (Fin 256)
  deriving DecidableEq, Repr

/-- One call into a collaborator, with the arguments that matter. -/
inductive Call where
  /-- Call `KeyValueStoreMgrImpl().Init()` -/
  | KeyValueStoreMgrImpl_Init
  /-- Call `tcpip_init(NULL, NULL)` -/
  | tcpip_init
  /-- Call `System::Clock::InitClock_RealTime()` -/
  | InitClock_RealTime
  /-- Call `chip::Crypto::add_entropy_source(app_entropy_source, NULL, threshold)` -/
  | add_entropy_source (threshold : Nat)
  /-- Call `sys_mutex_new(&rngMutexHandle)` -/
  | sys_mutex_new
  /-- Call `uECC_set_rng(PlatformManagerImpl::uECC_RNG_Function)` -/
  | uECC_set_rng
  /-- Call `GenericPlatformManagerImpl_FreeRTOS<PlatformManagerImpl>::_InitChipStack()` -/
  | Generic_InitChipStack
  /-- Call `SystemLayer().StartTimer(Seconds32(seconds), callback, NULL)` -/
  | StartTimer (seconds : Nat) (callback : TimerCallback)
  /-- Call `ConfigurationMgr().GetTotalOperationalHours(totalOperationalHours)` -/
  | GetTotalOperationalHours
  /-- Call `ConfigurationMgr().StoreTotalOperationalHours(value)` -/
  | StoreTotalOperationalHours (value : Nat)
  /-- Call `ChipLogError(DeviceLayer, ...)` -/
  | ChipLogError
  /-- Call `sys_mutex_lock(&rngMutexHandle)` -/
  | sys_mutex_lock
  /-- Call `chip::Crypto::DRBG_get_bytes(dest, size)` -/
  | DRBG_get_bytes (size : Nat)
  /-- Call `sys_mutex_unlock(&rngMutexHandle)` -/
  | sys_mutex_unlock
  /-- Call `sInstance.PostEvent(&event)` -/
  | PostEvent (event : ChipDeviceEvent)
  deriving DecidableEq, Repr

/-- Recogniser of `StartTimer` calls in a trace. -/
def Call.isStartTimer : Call → Bool
  | .StartTimer _ _ => true
  | _ => false

/-- Recogniser of `StoreTotalOperationalHours` calls in a trace. -/
def Call.isStore : Call → Bool
  | .StoreTotalOperationalHours _ => true
  | _ => false

/-! ## `_InitChipStack` -/

/-- Compile-time switches of the translation unit. -/
structure BuildConfig where
  CHIP_SYSTEM_CONFIG_USE_LWIP : Bool
  TINYCRYPT_PRIMITIVES : Bool
  deriving DecidableEq, Repr

/-- The status each collaborator of `_InitChipStack` reports when it is called.
`tcpip_init` and `uECC_set_rng` return `void` and have no entry;
`sys_mutex_new` reports an lwIP `err_t`; `System::Layer::StartTimer` reports a
`CHIP_ERROR`. -/
structure InitResults where
  kvsInit : CHIP_ERROR
  initClock : CHIP_ERROR
  addEntropy : CHIP_ERROR
  mutexNew : err_t
  genericInit : CHIP_ERROR
  startTimer : CHIP_ERROR
  deriving DecidableEq, Repr

/-- Embedding of `PlatformManagerImpl::_InitChipStack`: the returned `CHIP_ERROR`
and the trace of collaborator calls, in program order.

* `SuccessOrExit(err)` jumps to `exit: return err;` when `err` is not
  `CHIP_NO_ERROR`;
* `ReturnErrorOnFailure(e)` returns `e` when it is not `CHIP_NO_ERROR`;
* `VerifyOrExit(ERR_OK == ret, err = CHIP_ERROR_NO_MEMORY)` sets `err` and jumps
  to `exit` when the condition is false;
* the value of the final `StartTimer` call is discarded. -/
def PlatformManagerImpl._InitChipStack (cfg : BuildConfig) (r : InitResults) : CHIP_ERROR × List Call :=
  -- err = KeyValueStoreMgrImpl().Init(); SuccessOrExit(err);
  let err := r.kvsInit
  let t := [Call.KeyValueStoreMgrImpl_Init]
  if err ≠ CHIP_NO_ERROR then (err, t) else
  -- #if CHIP_SYSTEM_CONFIG_USE_LWIP  tcpip_init(NULL, NULL);
  let t := if cfg.CHIP_SYSTEM_CONFIG_USE_LWIP then t ++ [Call.tcpip_init] else t
  -- ReturnErrorOnFailure(System::Clock::InitClock_RealTime());
  let t := t ++ [Call.InitClock_RealTime]
  if r.initClock ≠ CHIP_NO_ERROR then (r.initClock, t) else
  -- ReturnErrorOnFailure(chip::Crypto::add_entropy_source(app_entropy_source, NULL, 16));
  let t := t ++ [Call.add_entropy_source 16]
  if r.addEntropy ≠ CHIP_NO_ERROR then (r.addEntropy, t) else
  -- #if defined(TINYCRYPT_PRIMITIVES)
  let t := if cfg.TINYCRYPT_PRIMITIVES then t ++ [Call.sys_mutex_new] else t
  if cfg.TINYCRYPT_PRIMITIVES && decide (r.mutexNew ≠ ERR_OK) then (CHIP_ERROR_NO_MEMORY, t) else
  let t := if cfg.TINYCRYPT_PRIMITIVES then t ++ [Call.uECC_set_rng] else t
  -- err = GenericPlatformManagerImpl_FreeRTOS<PlatformManagerImpl>::_InitChipStack();
  let err := r.genericInit
  let t := t ++ [Call.Generic_InitChipStack]
  if err ≠ CHIP_NO_ERROR then (err, t) else
  -- SystemLayer().StartTimer(Seconds32(kSecondsPerHour), UpdateOperationalHours, NULL);
  let t := t ++ [Call.StartTimer kSecondsPerHour TimerCallback.UpdateOperationalHours]
  -- exit: return err;
  (err, t)

/-! ## Expected traces of `_InitChipStack` -/

/-- The lwIP part of the bring-up trace: `tcpip_init` when lwIP is compiled in. -/
def lwipCalls (cfg : BuildConfig) : List Call :=
  if cfg.CHIP_SYSTEM_CONFIG_USE_LWIP then [Call.tcpip_init] else []

/-- The tinycrypt part of the bring-up trace: `sys_mutex_new` then
`uECC_set_rng` when `TINYCRYPT_PRIMITIVES` is compiled in. -/
def rngCalls (cfg : BuildConfig) : List Call :=
  if cfg.TINYCRYPT_PRIMITIVES then [Call.sys_mutex_new, Call.uECC_set_rng] else []

/-- Bring-up results in which every collaborator succeeds except `StartTimer`,
which reports `CHIP_ERROR_NO_MEMORY`. -/
def timerFailsOnly : InitResults :=
  { kvsInit := CHIP_NO_ERROR, initClock := CHIP_NO_ERROR, addEntropy := CHIP_NO_ERROR,
    mutexNew := ERR_OK, genericInit := CHIP_NO_ERROR, startTimer := CHIP_ERROR_NO_MEMORY }

/-- Bring-up results in which the real-time clock is the first step to fail
(error 3) and every later collaborator would fail as well. -/
def clockFailsFirst : InitResults :=
  { kvsInit := CHIP_NO_ERROR, initClock := 3, addEntropy := 4,
    mutexNew := -1, genericInit := 5, startTimer := 6 }

/-- Bring-up results in which every collaborator succeeds. -/
def allSucceed : InitResults :=
  { kvsInit := CHIP_NO_ERROR, initClock := CHIP_NO_ERROR, addEntropy := CHIP_NO_ERROR,
    mutexNew := ERR_OK, genericInit := CHIP_NO_ERROR, startTimer := CHIP_NO_ERROR }

/-! ## `UpdateOperationalHours` -/

/-- The status each collaborator of `UpdateOperationalHours` reports on one
tick. -/
structure TickResults where
  getHours : CHIP_ERROR
  storeHours : CHIP_ERROR
  startTimer : CHIP_ERROR
  deriving DecidableEq, Repr

/-- Modelled from the spec: `ConfigurationMgr().GetTotalOperationalHours` is
declared outside `PlatformManagerImpl.cpp`; the spec gives
`getCounter(key) -> Result<u32, ErrorKind>`.  On success the out-parameter
receives the persisted count, on failure it is left as it was. -/
def ConfigurationMgr.GetTotalOperationalHours (persisted : Nat) (status : CHIP_ERROR) (out : Nat) :
    CHIP_ERROR × Nat :=
  if status = CHIP_NO_ERROR then (status, persisted) else (status, out)

/-- Modelled from the spec: `ConfigurationMgr().StoreTotalOperationalHours` is
declared outside `PlatformManagerImpl.cpp`; the spec gives
`setCounter(key, u32) -> Result<(), ErrorKind>`.  On success the persisted
count becomes the `uint32_t` argument, on failure it keeps its value. -/
def ConfigurationMgr.StoreTotalOperationalHours (persisted : Nat) (status : CHIP_ERROR) (value : Nat) :
    CHIP_ERROR × Nat :=
  if status = CHIP_NO_ERROR then (status, value % UINT32_MOD) else (status, persisted)

/-- Embedding of `PlatformManagerImpl::UpdateOperationalHours`: from the
persisted count before the tick, the persisted count after it and the trace of
collaborator calls.  The function returns `void`; the statuses of
`StoreTotalOperationalHours` and `StartTimer` are discarded.
`totalOperationalHours + 1` is `uint32_t` arithmetic. -/
def PlatformManagerImpl.UpdateOperationalHours (persisted : Nat) (r : TickResults) : Nat × List Call :=
  -- uint32_t totalOperationalHours = 0;
  let totalOperationalHours := 0
  let got := ConfigurationMgr.GetTotalOperationalHours persisted r.getHours totalOperationalHours
  let totalOperationalHours := got.2
  let t := [Call.GetTotalOperationalHours]
  let (persisted, t) :=
    if got.1 = CHIP_NO_ERROR then
      let value := (totalOperationalHours + 1) % UINT32_MOD
      ((ConfigurationMgr.StoreTotalOperationalHours persisted r.storeHours value).2,
        t ++ [Call.StoreTotalOperationalHours value])
    else
      (persisted, t ++ [Call.ChipLogError])
  -- SystemLayer().StartTimer(Seconds32(kSecondsPerHour), UpdateOperationalHours, NULL);
  (persisted, t ++ [Call.StartTimer kSecondsPerHour TimerCallback.UpdateOperationalHours])

/-- Consecutive timer ticks: one invocation of `UpdateOperationalHours` per
entry of `rs`, each starting from the count the previous one persisted. -/
def PlatformManagerImpl.runTicks (persisted : Nat) : List TickResults → Nat
  | [] => persisted
  | r :: rs => runTicks (PlatformManagerImpl.UpdateOperationalHours persisted r).1 rs

/-! ## `uECC_RNG_Function` -/

/-- Embedding of `PlatformManagerImpl::uECC_RNG_Function` (compiled when
`TINYCRYPT_PRIMITIVES` is defined): the returned `int` and the trace of calls.
`size` is an `unsigned int`; `drbg` is the status `DRBG_get_bytes` reports.
The conditional expression `... ? size : 0` has type `unsigned int` and is
converted to `int` by the assignment to `res`. -/
def PlatformManagerImpl.uECC_RNG_Function (size : Nat) (drbg : CHIP_ERROR) : Int × List Call :=
  let size := size % UINT32_MOD
  -- sys_mutex_lock(&rngMutexHandle);
  let t := [Call.sys_mutex_lock]
  -- res = (DRBG_get_bytes(dest, size) == CHIP_NO_ERROR) ? size : 0;
  let t := t ++ [Call.DRBG_get_bytes size]
  let res := toInt32 (if drbg = CHIP_NO_ERROR then size else 0)
  -- sys_mutex_unlock(&rngMutexHandle);
  let t := t ++ [Call.sys_mutex_unlock]
  (res, t)

/-! ## `HandleWFXSystemEvent` -/

/-- Constants and object sizes that come from the vendor Wi-Fi headers and from
the device-event header, none of which is part of `PlatformManagerImpl.cpp`;
they are parameters of the embedding.  The `sizeof_` fields are the values of
the `sizeof` expressions of the function; `sizeof_data` is the size of the
union `Platform.WFXSystemEvent.data`. -/
structure WfxAbi where
  kWFXSystemEvent : Nat
  WIFI_EVENT : Nat
  IP_EVENT : Nat
  SL_WFX_STARTUP_IND_ID : Nat
  SL_WFX_CONNECT_IND_ID : Nat
  SL_WFX_DISCONNECT_IND_ID : Nat
  IP_EVENT_STA_GOT_IP : Nat
  IP_EVENT_GOT_IP6 : Nat
  IP_EVENT_STA_LOST_IP : Nat
  sizeof_startupEvent : Nat
  sizeof_connectEvent : Nat
  sizeof_disconnectEvent : Nat
  sizeof_genericMsgEvent : Nat
  sizeof_data : Nat
  deriving DecidableEq, Repr

/-- What the C language guarantees about the constants: the two enumerators of
`wfx_event_base_t` differ, the case labels of each `switch` are pairwise
distinct, and the union `Platform.WFXSystemEvent.data` is at least as large as
each of its members. -/
def WfxAbi.WellFormed (abi : WfxAbi) : Prop :=
  abi.sizeof_startupEvent ≤ abi.sizeof_data ∧
  abi.sizeof_connectEvent ≤ abi.sizeof_data ∧
  abi.sizeof_disconnectEvent ≤ abi.sizeof_data ∧
  abi.sizeof_genericMsgEvent ≤ abi.sizeof_data ∧
  abi.WIFI_EVENT ≠ abi.IP_EVENT ∧
  abi.SL_WFX_STARTUP_IND_ID ≠ abi.SL_WFX_CONNECT_IND_ID ∧
  abi.SL_WFX_STARTUP_IND_ID ≠ abi.SL_WFX_DISCONNECT_IND_ID ∧
  abi.SL_WFX_CONNECT_IND_ID ≠ abi.SL_WFX_DISCONNECT_IND_ID ∧
  abi.IP_EVENT_STA_GOT_IP ≠ abi.IP_EVENT_GOT_IP6 ∧
  abi.IP_EVENT_STA_GOT_IP ≠ abi.IP_EVENT_STA_LOST_IP ∧
  abi.IP_EVENT_GOT_IP6 ≠ abi.IP_EVENT_STA_LOST_IP

instance (abi : WfxAbi) : Decidable abi.WellFormed := by
  unfold WfxAbi.WellFormed; infer_instance

/-- The object `eventData` points to: the field `header.id` and the bytes of
the whole object (header included), as many as the object really has.  The
layout of the header is not part of `PlatformManagerImpl.cpp`, so the position
of `id` among the bytes is left open: the theorems hold for every pair of an
id and a byte image. -/
structure sl_wfx_generic_message_t where
  header_id : Nat
  bytes : List (Fin 256)
  deriving DecidableEq, Repr

/-- Embedding of `memset(&x, 0, n)` on a fresh object of `n` bytes. -/
def memset_zero (n : Nat) : List (Fin 256) := List.replicate n 0

/-- Embedding of `memcpy(dst, src, n)` with `dst` at offset 0 of the destination:
the first `n` bytes of the destination are replaced by the first `n` bytes of
the source.  Reading past the end of the source object, or writing past the end
of the destination, has no defined result. -/
def memcpy (dst src : List (Fin 256)) (n : Nat) : Option (List (Fin 256)) :=
  if n ≤ src.length ∧ n ≤ dst.length then some (src.take n ++ dst.drop n) else none

/-- The member `data.startupEvent` of an event. -/
def ChipDeviceEvent.startupEvent (abi : WfxAbi) (e : ChipDeviceEvent) : List (Fin 256) :=
  e.data.take abi.sizeof_startupEvent

/-- The member `data.connectEvent` of an event. -/
def ChipDeviceEvent.connectEvent (abi : WfxAbi) (e : ChipDeviceEvent) : List (Fin 256) :=
  e.data.take abi.sizeof_connectEvent

/-- The member `data.disconnectEvent` of an event. -/
def ChipDeviceEvent.disconnectEvent (abi : WfxAbi) (e : ChipDeviceEvent) : List (Fin 256) :=
  e.data.take abi.sizeof_disconnectEvent

/-- The member `data.genericMsgEvent` of an event. -/
def ChipDeviceEvent.genericMsgEvent (abi : WfxAbi) (e : ChipDeviceEvent) : List (Fin 256) :=
  e.data.take abi.sizeof_genericMsgEvent

/-- Embedding of `PlatformManagerImpl::HandleWFXSystemEvent` (compiled when
`CHIP_DEVICE_CONFIG_ENABLE_WIFI_STATION` is set): the trace of calls, or `none`
when a `memcpy` has no defined result.  Each `switch` is the chain of
comparisons with its case labels, `default: break;` last. -/
def PlatformManagerImpl.HandleWFXSystemEvent (abi : WfxAbi) (eventBase : Nat)
    (eventData : sl_wfx_generic_message_t) : Option (List Call) :=
  -- memset(&event, 0, sizeof(event)); event.Type = ...; event...eventBase = eventBase;
  let event : ChipDeviceEvent :=
    { type := abi.kWFXSystemEvent, eventBase := eventBase, data := memset_zero abi.sizeof_data }
  let data : Option (List (Fin 256)) :=
    if eventBase = abi.WIFI_EVENT then
      if eventData.header_id = abi.SL_WFX_STARTUP_IND_ID then
        memcpy event.data eventData.bytes abi.sizeof_startupEvent
      else if eventData.header_id = abi.SL_WFX_CONNECT_IND_ID then
        memcpy event.data eventData.bytes abi.sizeof_connectEvent
      else if eventData.header_id = abi.SL_WFX_DISCONNECT_IND_ID then
        memcpy event.data eventData.bytes abi.sizeof_disconnectEvent
      else some event.data
    else if eventBase = abi.IP_EVENT then
      if eventData.header_id = abi.IP_EVENT_STA_GOT_IP then
        memcpy event.data eventData.bytes abi.sizeof_genericMsgEvent
      else if eventData.header_id = abi.IP_EVENT_GOT_IP6 then
        memcpy event.data eventData.bytes abi.sizeof_genericMsgEvent
      else if eventData.header_id = abi.IP_EVENT_STA_LOST_IP then
        memcpy event.data eventData.bytes abi.sizeof_genericMsgEvent
      else some event.data
    else some event.data
  -- (void) sInstance.PostEvent(&event);
  data.map fun d => [Call.PostEvent { event with data := d }]

/-- Sample values for the vendor constants and object sizes, used to evaluate the
embedding on concrete events. -/
def sampleAbi : WfxAbi :=
  { kWFXSystemEvent := 0x8004, WIFI_EVENT := 0, IP_EVENT := 1,
    SL_WFX_STARTUP_IND_ID := 0xE1, SL_WFX_CONNECT_IND_ID := 0xC3,
    SL_WFX_DISCONNECT_IND_ID := 0xC4,
    IP_EVENT_STA_GOT_IP := 0, IP_EVENT_GOT_IP6 := 1, IP_EVENT_STA_LOST_IP := 2,
    sizeof_startupEvent := 8, sizeof_connectEvent := 6, sizeof_disconnectEvent := 5,
    sizeof_genericMsgEvent := 4, sizeof_data := 8 }

/-- A sample connect indication: header id `0xC3`, seven bytes. -/
def sampleConnectInd : sl_wfx_generic_message_t :=
  { header_id := 0xC3, bytes := [7, 0, 0xC3, 0, 17, 34, 51] }

/-- A sample indication with an id that `HandleWFXSystemEvent` does not decode
(`0xCA`). -/
def sampleReceivedInd : sl_wfx_generic_message_t :=
  { header_id := 0xCA, bytes := [6, 0, 0xCA, 0, 1, 2] }

/-! ## The entropy callback -/

/-- The loop of `app_get_random`: `for (i = 0; i < aLen; i++) aOutput[i] = rand();`.
The `k`-th call of `rand()` yields `rand k`; the store into a `uint8_t`
keeps the low 8 bits.  The result is the list of stores `(index, byte)` in
program order. -/
def app_get_random.loop (rand : Nat → Nat) (aLen : Nat) (i : Nat)
    (writes : List (Nat × Nat)) : List (Nat × Nat) :=
  if i < aLen then
    app_get_random.loop rand aLen (i + 1) (writes ++ [(i, rand i % 256)])
  else writes
termination_by aLen - i

/-- Embedding of `app_get_random(aOutput, aLen)`: the stores it performs into
`aOutput`. -/
def app_get_random (rand : Nat → Nat) (aLen : Nat) : List (Nat × Nat) :=
  app_get_random.loop rand aLen 0 []

/-- Result of `app_entropy_source`: its return value, the value stored in
`*olen` and the stores performed into `output`. -/
structure EntropyResult where
  ret : Int
  olen : Nat
  writes : List (Nat × Nat)
  deriving DecidableEq, Repr

/-- Embedding of `app_entropy_source(data, output, len, olen)`.  `len` is a
`size_t`; the argument passed to `app_get_random` is
`static_cast<uint16_t>(len)`. -/
def app_entropy_source (rand : Nat → Nat) (len : Nat) : EntropyResult :=
  { writes := app_get_random rand (len % UINT16_MOD)
    olen := len
    ret := 0 }

/-! ## `Silabs::MigrateCounterConfigs` -/

namespace Silabs

/-- The persistent store: the 32-bit value held under each key, if any. -/
abbrev Nvm := Nat → Option Nat

/-- Key constants and the key constructor of `SilabsConfig`, declared outside
`PlatformManagerImpl.cpp`; they are parameters of the embedding. -/
structure SilabsConfig where
  SilabsConfigKey : Nat → Nat → Nat
  kMatterCounter_KeyBase : Nat
  kConfigKey_BootCount : Nat
  kConfigKey_TotalOperationalHours : Nat

/-- Store `v` under key `k`. -/
def Nvm.write (nvm : Nvm) (k v : Nat) : Nvm := fun j => if j = k then some v else nvm j

/-- Remove key `k`. -/
def Nvm.clear (nvm : Nvm) (k : Nat) : Nvm := fun j => if j = k then none else nvm j

/-- Modelled from the spec: `MigrationManager::MigrateUint32` is defined outside
`PlatformManagerImpl.cpp`.  The spec: the migration "copies the legacy 32-bit
value to the new key if present"; afterwards the legacy key counts as "already
migrated", that is absent ("cleared"); "if the legacy key is already absent
(already migrated, or never existed) the operation for that pair is a no-op". -/
def MigrationManager.MigrateUint32 (old_key new_key : Nat) (nvm : Nvm) : Nvm :=
  match nvm old_key with
  | none => nvm
  | some value => (nvm.write new_key value).clear old_key

/-- The legacy boot-count key, `SilabsConfigKey(kMatterCounter_KeyBase, 0x00)`. -/
def kOldConfigKey_BootCount (c : SilabsConfig) : Nat :=
  c.SilabsConfigKey c.kMatterCounter_KeyBase 0x00

/-- The legacy operational-hours key,
`SilabsConfigKey(kMatterCounter_KeyBase, 0x01)`. -/
def kOldConfigKey_TotalOperationalHours (c : SilabsConfig) : Nat :=
  c.SilabsConfigKey c.kMatterCounter_KeyBase 0x01

/-- Embedding of `Silabs::MigrateCounterConfigs`: the store after the two
migrations, in program order. -/
def MigrateCounterConfigs (c : SilabsConfig) (nvm : Nvm) : Nvm :=
  let nvm := MigrationManager.MigrateUint32 (kOldConfigKey_BootCount c) c.kConfigKey_BootCount nvm
  MigrationManager.MigrateUint32 (kOldConfigKey_TotalOperationalHours c)
    c.kConfigKey_TotalOperationalHours nvm

/-- The four keys of the migration are pairwise distinct. -/
def SilabsConfig.DistinctKeys (c : SilabsConfig) : Prop :=
  kOldConfigKey_BootCount c ≠ kOldConfigKey_TotalOperationalHours c ∧
  kOldConfigKey_BootCount c ≠ c.kConfigKey_BootCount ∧
  kOldConfigKey_BootCount c ≠ c.kConfigKey_TotalOperationalHours ∧
  kOldConfigKey_TotalOperationalHours c ≠ c.kConfigKey_BootCount ∧
  kOldConfigKey_TotalOperationalHours c ≠ c.kConfigKey_TotalOperationalHours ∧
  c.kConfigKey_BootCount ≠ c.kConfigKey_TotalOperationalHours

instance (c : SilabsConfig) : Decidable c.DistinctKeys := by
  unfold SilabsConfig.DistinctKeys; infer_instance

/-- Sample key-space: `SilabsConfigKey(base, id) = 0x080000 | base << 8 | id`,
counter key base `0x74`, new keys in the configuration key base `0x01`. -/
def sampleConfig : SilabsConfig :=
  { SilabsConfigKey := fun keyBaseOffset id => 0x080000 + keyBaseOffset * 256 + id
    kMatterCounter_KeyBase := 0x74
    kConfigKey_BootCount := 0x080000 + 0x01 * 256 + 0x26
    kConfigKey_TotalOperationalHours := 0x080000 + 0x01 * 256 + 0x27 }

/-- A store that holds only the legacy boot count, 5. -/
def legacyBootCount5 : Nvm :=
  fun k => if k = kOldConfigKey_BootCount sampleConfig then some 5 else none

end Silabs

/-! ## Theorems about `_InitChipStack` -/

/-- C1, as stated, fails: when arming the operational-hours timer is the first
(and only) step that fails, `StartTimer` has been invoked, its error is
`CHIP_ERROR_NO_MEMORY`, and `_InitChipStack` returns `CHIP_NO_ERROR`, not that
error. -/
theorem C1_counterexample_timer_status_discarded :
    timerFailsOnly.kvsInit = CHIP_NO_ERROR ∧ timerFailsOnly.initClock = CHIP_NO_ERROR ∧
    timerFailsOnly.addEntropy = CHIP_NO_ERROR ∧ timerFailsOnly.mutexNew = ERR_OK ∧
    timerFailsOnly.genericInit = CHIP_NO_ERROR ∧
    timerFailsOnly.startTimer ≠ CHIP_NO_ERROR ∧
    Call.StartTimer 3600 TimerCallback.UpdateOperationalHours ∈
      (PlatformManagerImpl._InitChipStack ⟨true, true⟩ timerFailsOnly).2 ∧
    (PlatformManagerImpl._InitChipStack ⟨true, true⟩ timerFailsOnly).1 = CHIP_NO_ERROR ∧
    (PlatformManagerImpl._InitChipStack ⟨true, true⟩ timerFailsOnly).1 ≠
      timerFailsOnly.startTimer := by
  decide

/-- C1 (amended): for every build configuration and every assignment of
results to the collaborators, if the first failing step is one whose status
`_InitChipStack` checks (key-value store init, real-time clock init,
`add_entropy_source`, RNG mutex allocation when `TINYCRYPT_PRIMITIVES` is
compiled in, generic `_InitChipStack`), the trace stops right after that step
and the returned value is that error of that step exactly (`CHIP_ERROR_NO_MEMORY` for
the mutex allocation); and when all checked steps succeed the returned value is
`CHIP_NO_ERROR` whatever status `StartTimer` reports. -/
theorem C1_first_checked_failure_returned (cfg : BuildConfig) (r : InitResults) :
    (r.kvsInit ≠ CHIP_NO_ERROR →
      PlatformManagerImpl._InitChipStack cfg r =
        (r.kvsInit, [Call.KeyValueStoreMgrImpl_Init])) ∧
    (r.kvsInit = CHIP_NO_ERROR → r.initClock ≠ CHIP_NO_ERROR →
      PlatformManagerImpl._InitChipStack cfg r =
        (r.initClock,
          [Call.KeyValueStoreMgrImpl_Init] ++ lwipCalls cfg ++ [Call.InitClock_RealTime])) ∧
    (r.kvsInit = CHIP_NO_ERROR → r.initClock = CHIP_NO_ERROR →
      r.addEntropy ≠ CHIP_NO_ERROR →
      PlatformManagerImpl._InitChipStack cfg r =
        (r.addEntropy,
          [Call.KeyValueStoreMgrImpl_Init] ++ lwipCalls cfg ++
            [Call.InitClock_RealTime, Call.add_entropy_source 16])) ∧
    (r.kvsInit = CHIP_NO_ERROR → r.initClock = CHIP_NO_ERROR →
      r.addEntropy = CHIP_NO_ERROR → cfg.TINYCRYPT_PRIMITIVES = true →
      r.mutexNew ≠ ERR_OK →
      PlatformManagerImpl._InitChipStack cfg r =
        (CHIP_ERROR_NO_MEMORY,
          [Call.KeyValueStoreMgrImpl_Init] ++ lwipCalls cfg ++
            [Call.InitClock_RealTime, Call.add_entropy_source 16, Call.sys_mutex_new])) ∧
    (r.kvsInit = CHIP_NO_ERROR → r.initClock = CHIP_NO_ERROR →
      r.addEntropy = CHIP_NO_ERROR →
      (cfg.TINYCRYPT_PRIMITIVES = true → r.mutexNew = ERR_OK) →
      r.genericInit ≠ CHIP_NO_ERROR →
      PlatformManagerImpl._InitChipStack cfg r =
        (r.genericInit,
          [Call.KeyValueStoreMgrImpl_Init] ++ lwipCalls cfg ++
            [Call.InitClock_RealTime, Call.add_entropy_source 16] ++ rngCalls cfg ++
            [Call.Generic_InitChipStack])) ∧
    (r.kvsInit = CHIP_NO_ERROR → r.initClock = CHIP_NO_ERROR →
      r.addEntropy = CHIP_NO_ERROR →
      (cfg.TINYCRYPT_PRIMITIVES = true → r.mutexNew = ERR_OK) →
      r.genericInit = CHIP_NO_ERROR →
      (PlatformManagerImpl._InitChipStack cfg r).1 = CHIP_NO_ERROR) := by
  obtain ⟨lwip, tiny⟩ := cfg
  refine ⟨?_, ?_, ?_, ?_, ?_, ?_⟩
  · intro h
    simp [PlatformManagerImpl._InitChipStack, h]
  · intro h1 h2
    cases lwip <;> simp [PlatformManagerImpl._InitChipStack, lwipCalls, h1, h2]
  · intro h1 h2 h3
    cases lwip <;> simp [PlatformManagerImpl._InitChipStack, lwipCalls, h1, h2, h3]
  · intro h1 h2 h3 h4 h5
    simp only at h4
    subst h4
    cases lwip <;> simp [PlatformManagerImpl._InitChipStack, lwipCalls, h1, h2, h3, h5]
  · intro h1 h2 h3 h4 h5
    cases tiny
    · cases lwip <;>
        simp [PlatformManagerImpl._InitChipStack, lwipCalls, rngCalls, h1, h2, h3, h5]
    · have h4 := h4 rfl
      cases lwip <;>
        simp [PlatformManagerImpl._InitChipStack, lwipCalls, rngCalls, h1, h2, h3, h4, h5]
  · intro h1 h2 h3 h4 h5
    cases tiny
    · cases lwip <;>
        simp [PlatformManagerImpl._InitChipStack, h1, h2, h3, h5]
    · have h4 := h4 rfl
      cases lwip <;>
        simp [PlatformManagerImpl._InitChipStack, h1, h2, h3, h4, h5]

/-- Witness of C1 (amended): with lwIP and tinycrypt compiled in, the key-value
store succeeding and the real-time clock failing with error 3 (every later
collaborator set to fail too), `_InitChipStack` returns 3 after exactly the
calls up to `InitClock_RealTime`. -/
theorem C1_first_checked_failure_returned_witness :
    PlatformManagerImpl._InitChipStack ⟨true, true⟩ clockFailsFirst =
      (3, [Call.KeyValueStoreMgrImpl_Init] ++ lwipCalls ⟨true, true⟩ ++
        [Call.InitClock_RealTime]) :=
  (C1_first_checked_failure_returned ⟨true, true⟩ clockFailsFirst).2.1
    (by decide) (by decide)

/-- C8: on every run of `_InitChipStack` in which every checked step succeeds,
the result is `CHIP_NO_ERROR` and the trace is exactly: key-value store `Init`,
`tcpip_init` (with lwIP), `InitClock_RealTime`, `add_entropy_source` with
threshold 16, `sys_mutex_new` then `uECC_set_rng` (with tinycrypt), the generic
`_InitChipStack`, and last `StartTimer` with a period of 3600 seconds and the
callback `UpdateOperationalHours`; and on every run that returns an error the
trace contains no `StartTimer` call. -/
theorem C8_success_trace_and_timer_only_on_success (cfg : BuildConfig) (r : InitResults) :
    (r.kvsInit = CHIP_NO_ERROR → r.initClock = CHIP_NO_ERROR →
      r.addEntropy = CHIP_NO_ERROR →
      (cfg.TINYCRYPT_PRIMITIVES = true → r.mutexNew = ERR_OK) →
      r.genericInit = CHIP_NO_ERROR →
      PlatformManagerImpl._InitChipStack cfg r =
        (CHIP_NO_ERROR,
          [Call.KeyValueStoreMgrImpl_Init] ++ lwipCalls cfg ++
            [Call.InitClock_RealTime, Call.add_entropy_source 16] ++ rngCalls cfg ++
            [Call.Generic_InitChipStack,
              Call.StartTimer 3600 TimerCallback.UpdateOperationalHours])) ∧
    ((PlatformManagerImpl._InitChipStack cfg r).1 ≠ CHIP_NO_ERROR →
      ∀ c ∈ (PlatformManagerImpl._InitChipStack cfg r).2, c.isStartTimer = false) := by
  obtain ⟨lwip, tiny⟩ := cfg
  constructor
  · intro h1 h2 h3 h4 h5
    cases tiny
    · cases lwip <;>
        simp [PlatformManagerImpl._InitChipStack, lwipCalls, rngCalls, kSecondsPerHour,
          h1, h2, h3, h5]
    · have h4 := h4 rfl
      cases lwip <;>
        simp [PlatformManagerImpl._InitChipStack, lwipCalls, rngCalls, kSecondsPerHour,
          h1, h2, h3, h4, h5]
  · unfold PlatformManagerImpl._InitChipStack
    by_cases h1 : r.kvsInit = CHIP_NO_ERROR
    · by_cases h2 : r.initClock = CHIP_NO_ERROR
      · by_cases h3 : r.addEntropy = CHIP_NO_ERROR
        · by_cases h4 : r.mutexNew = ERR_OK
          · by_cases h5 : r.genericInit = CHIP_NO_ERROR
            · simp [h1, h2, h3, h4, h5]
            · cases lwip <;> cases tiny <;> simp [h1, h2, h3, h4, h5, Call.isStartTimer]
          · by_cases h5 : r.genericInit = CHIP_NO_ERROR
            · cases lwip <;> cases tiny <;> simp [h1, h2, h3, h4, h5, Call.isStartTimer]
            · cases lwip <;> cases tiny <;> simp [h1, h2, h3, h4, h5, Call.isStartTimer]
        · cases lwip <;> simp [h1, h2, h3, Call.isStartTimer]
      · cases lwip <;> simp [h1, h2, Call.isStartTimer]
    · simp [h1, Call.isStartTimer]

/-- Witness of C8: with lwIP and tinycrypt compiled in and every collaborator
succeeding, `_InitChipStack` returns `CHIP_NO_ERROR` after the eight calls in
order. -/
theorem C8_success_trace_and_timer_only_on_success_witness :
    PlatformManagerImpl._InitChipStack ⟨true, true⟩ allSucceed =
      (CHIP_NO_ERROR,
        [Call.KeyValueStoreMgrImpl_Init, Call.tcpip_init, Call.InitClock_RealTime,
          Call.add_entropy_source 16, Call.sys_mutex_new, Call.uECC_set_rng,
          Call.Generic_InitChipStack,
          Call.StartTimer 3600 TimerCallback.UpdateOperationalHours]) :=
  (C8_success_trace_and_timer_only_on_success ⟨true, true⟩ allSucceed).1
    (by decide) (by decide) (by decide) (by decide) (by decide)

/-! ## Theorems about `UpdateOperationalHours` -/

/-- One tick on which the read fails leaves the persisted count as it was and
makes exactly the calls get, log, re-arm. -/
theorem UpdateOperationalHours_read_failure (c : Nat) (r : TickResults)
    (h : r.getHours ≠ CHIP_NO_ERROR) :
    PlatformManagerImpl.UpdateOperationalHours c r =
      (c, [Call.GetTotalOperationalHours, Call.ChipLogError,
        Call.StartTimer 3600 TimerCallback.UpdateOperationalHours]) := by
  simp [PlatformManagerImpl.UpdateOperationalHours,
    ConfigurationMgr.GetTotalOperationalHours, kSecondsPerHour, h]

/-- One tick on which read and write succeed persists the count plus one,
modulo `2 ^ 32`. -/
theorem UpdateOperationalHours_success (c : Nat) (r : TickResults)
    (hg : r.getHours = CHIP_NO_ERROR) (hs : r.storeHours = CHIP_NO_ERROR) :
    PlatformManagerImpl.UpdateOperationalHours c r =
      ((c + 1) % UINT32_MOD,
        [Call.GetTotalOperationalHours,
          Call.StoreTotalOperationalHours ((c + 1) % UINT32_MOD),
          Call.StartTimer 3600 TimerCallback.UpdateOperationalHours]) := by
  simp [PlatformManagerImpl.UpdateOperationalHours,
    ConfigurationMgr.GetTotalOperationalHours,
    ConfigurationMgr.StoreTotalOperationalHours, kSecondsPerHour, hg, hs]

/-- C4, as stated, fails: from the initial count `4294967295` one tick with
read and write succeeding persists `0`, not `4294967295 + 1`. -/
theorem C4_counterexample_wraps :
    PlatformManagerImpl.runTicks 4294967295 [⟨CHIP_NO_ERROR, CHIP_NO_ERROR, CHIP_NO_ERROR⟩] = 0 ∧
    PlatformManagerImpl.runTicks 4294967295 [⟨CHIP_NO_ERROR, CHIP_NO_ERROR, CHIP_NO_ERROR⟩] ≠
      4294967295 + [(⟨CHIP_NO_ERROR, CHIP_NO_ERROR, CHIP_NO_ERROR⟩ : TickResults)].length := by
  decide

/-- C4 (amended): for every initial 32-bit count `c` and every sequence of `N`
consecutive ticks on which `GetTotalOperationalHours` and
`StoreTotalOperationalHours` succeed, the persisted count afterwards is
`(c + N) mod 2 ^ 32`; it is `c + N` whenever `c + N < 2 ^ 32`. -/
theorem C4_ticks_add_mod (c : Nat) (rs : List TickResults) (hc : c < 2 ^ 32)
    (hok : ∀ r ∈ rs, r.getHours = CHIP_NO_ERROR ∧ r.storeHours = CHIP_NO_ERROR) :
    PlatformManagerImpl.runTicks c rs = (c + rs.length) % 2 ^ 32 ∧
    (c + rs.length < 2 ^ 32 → PlatformManagerImpl.runTicks c rs = c + rs.length) := by
  have key : ∀ (rs : List TickResults) (c : Nat), c < 2 ^ 32 →
      (∀ r ∈ rs, r.getHours = CHIP_NO_ERROR ∧ r.storeHours = CHIP_NO_ERROR) →
      PlatformManagerImpl.runTicks c rs = (c + rs.length) % 2 ^ 32 := by
    intro rs
    induction rs with
    | nil =>
      intro c hc _
      simp only [PlatformManagerImpl.runTicks, List.length_nil, Nat.add_zero]
      exact (Nat.mod_eq_of_lt hc).symm
    | cons r rs ih =>
      intro c _ hok
      have hr := hok r (List.mem_cons_self r rs)
      have hrest : ∀ x ∈ rs, x.getHours = CHIP_NO_ERROR ∧ x.storeHours = CHIP_NO_ERROR :=
        fun x hx => hok x (List.mem_cons_of_mem r hx)
      have hlt : (c + 1) % 2 ^ 32 < 2 ^ 32 := Nat.mod_lt _ (by norm_num)
      simp only [PlatformManagerImpl.runTicks, UpdateOperationalHours_success c r hr.1 hr.2,
        UINT32_MOD, List.length_cons]
      rw [ih _ hlt hrest]
      omega
  refine ⟨key rs c hc hok, fun hlt => ?_⟩
  rw [key rs c hc hok, Nat.mod_eq_of_lt hlt]

/-- Witness of C4 (amended): from the count 7, three successful ticks persist
10. -/
theorem C4_ticks_add_mod_witness :
    PlatformManagerImpl.runTicks 7
      [⟨CHIP_NO_ERROR, CHIP_NO_ERROR, CHIP_NO_ERROR⟩, ⟨CHIP_NO_ERROR, CHIP_NO_ERROR, 5⟩,
        ⟨CHIP_NO_ERROR, CHIP_NO_ERROR, CHIP_NO_ERROR⟩] = 7 + 3 :=
  (C4_ticks_add_mod 7
    [⟨CHIP_NO_ERROR, CHIP_NO_ERROR, CHIP_NO_ERROR⟩, ⟨CHIP_NO_ERROR, CHIP_NO_ERROR, 5⟩,
      ⟨CHIP_NO_ERROR, CHIP_NO_ERROR, CHIP_NO_ERROR⟩]
    (by norm_num) (by decide)).2 (by norm_num)

/-- C5, as stated, fails: with the count `4294967295` before tick `k`, a read
failure on tick `k` and success on tick `k+1`, the count after tick `k+1` is
`0`, not `4294967295 + 1`. -/
theorem C5_counterexample_wraps :
    (PlatformManagerImpl.UpdateOperationalHours 4294967295 ⟨1, CHIP_NO_ERROR, CHIP_NO_ERROR⟩).1 =
      4294967295 ∧
    (PlatformManagerImpl.UpdateOperationalHours
      (PlatformManagerImpl.UpdateOperationalHours 4294967295
        ⟨1, CHIP_NO_ERROR, CHIP_NO_ERROR⟩).1
      ⟨CHIP_NO_ERROR, CHIP_NO_ERROR, CHIP_NO_ERROR⟩).1 = 0 ∧
    (PlatformManagerImpl.UpdateOperationalHours
      (PlatformManagerImpl.UpdateOperationalHours 4294967295
        ⟨1, CHIP_NO_ERROR, CHIP_NO_ERROR⟩).1
      ⟨CHIP_NO_ERROR, CHIP_NO_ERROR, CHIP_NO_ERROR⟩).1 ≠ 4294967295 + 1 := by
  decide

/-- C5 (amended): on every tick `k` on which `GetTotalOperationalHours` fails,
`StoreTotalOperationalHours` is not called, the persisted count is unchanged
after the tick, the function (of return type `void`) only logs and re-arms the
timer, and if the read and the write succeed on tick `k+1` the count after
tick `k+1` is the value before tick `k` plus one modulo `2 ^ 32` (plus one
exactly unless that value is `2 ^ 32 - 1`). -/
theorem C5_read_failure_then_recovery (c : Nat) (rk rk1 : TickResults)
    (hfail : rk.getHours ≠ CHIP_NO_ERROR) :
    (∀ call ∈ (PlatformManagerImpl.UpdateOperationalHours c rk).2, call.isStore = false) ∧
    (PlatformManagerImpl.UpdateOperationalHours c rk).1 = c ∧
    (PlatformManagerImpl.UpdateOperationalHours c rk).2 =
      [Call.GetTotalOperationalHours, Call.ChipLogError,
        Call.StartTimer 3600 TimerCallback.UpdateOperationalHours] ∧
    (rk1.getHours = CHIP_NO_ERROR → rk1.storeHours = CHIP_NO_ERROR →
      (PlatformManagerImpl.UpdateOperationalHours
        (PlatformManagerImpl.UpdateOperationalHours c rk).1 rk1).1 = (c + 1) % 2 ^ 32 ∧
      (c + 1 < 2 ^ 32 →
        (PlatformManagerImpl.UpdateOperationalHours
          (PlatformManagerImpl.UpdateOperationalHours c rk).1 rk1).1 = c + 1)) := by
  rw [UpdateOperationalHours_read_failure c rk hfail]
  refine ⟨?_, rfl, rfl, ?_⟩
  · intro call hcall
    simp only [List.mem_cons, List.mem_singleton, List.not_mem_nil, or_false] at hcall
    rcases hcall with h | h | h <;> subst h <;> rfl
  · intro hg hs
    simp only [UpdateOperationalHours_success c rk1 hg hs, UINT32_MOD]
    exact ⟨trivial, fun hlt => Nat.mod_eq_of_lt hlt⟩

/-- Witness of C5 (amended): with the count 41, a failing read on tick `k`
leaves 41, and a successful tick `k+1` persists 42. -/
theorem C5_read_failure_then_recovery_witness :
    (PlatformManagerImpl.UpdateOperationalHours 41 ⟨1, CHIP_NO_ERROR, CHIP_NO_ERROR⟩).1 = 41 ∧
    (PlatformManagerImpl.UpdateOperationalHours
      (PlatformManagerImpl.UpdateOperationalHours 41 ⟨1, CHIP_NO_ERROR, CHIP_NO_ERROR⟩).1
      ⟨CHIP_NO_ERROR, CHIP_NO_ERROR, CHIP_NO_ERROR⟩).1 = 41 + 1 :=
  ⟨(C5_read_failure_then_recovery 41 ⟨1, CHIP_NO_ERROR, CHIP_NO_ERROR⟩
      ⟨CHIP_NO_ERROR, CHIP_NO_ERROR, CHIP_NO_ERROR⟩ (by decide)).2.1,
    ((C5_read_failure_then_recovery 41 ⟨1, CHIP_NO_ERROR, CHIP_NO_ERROR⟩
      ⟨CHIP_NO_ERROR, CHIP_NO_ERROR, CHIP_NO_ERROR⟩ (by decide)).2.2.2
      (by decide) (by decide)).2 (by norm_num)⟩

/-- C6: for every persisted count and every outcome of the read, of the write
and of the timer service, one invocation of `UpdateOperationalHours` makes
exactly one `StartTimer` call, that call is the last of the trace, and its
arguments are a period of 3600 seconds and the callback
`UpdateOperationalHours`. -/
theorem C6_rearms_exactly_once_last (c : Nat) (r : TickResults) :
    (PlatformManagerImpl.UpdateOperationalHours c r).2.filter Call.isStartTimer =
      [Call.StartTimer 3600 TimerCallback.UpdateOperationalHours] ∧
    (PlatformManagerImpl.UpdateOperationalHours c r).2.getLast? =
      some (Call.StartTimer 3600 TimerCallback.UpdateOperationalHours) := by
  by_cases hg : r.getHours = CHIP_NO_ERROR
  · simp [PlatformManagerImpl.UpdateOperationalHours,
      ConfigurationMgr.GetTotalOperationalHours, kSecondsPerHour, hg, Call.isStartTimer]
  · simp [UpdateOperationalHours_read_failure c r hg, Call.isStartTimer]

/-! ## Theorems about `uECC_RNG_Function` -/

/-- C9, as stated, fails: for `size = 2147483648` with `DRBG_get_bytes`
succeeding, the returned `int` is `-2147483648`, not `size`. -/
theorem C9_counterexample_return_wraps :
    (PlatformManagerImpl.uECC_RNG_Function 2147483648 CHIP_NO_ERROR).1 = -2147483648 ∧
    (PlatformManagerImpl.uECC_RNG_Function 2147483648 CHIP_NO_ERROR).1 ≠
      ((2147483648 : Nat) : Int) := by
  decide

/-- C9 (amended): for every `unsigned int` size, one call of
`uECC_RNG_Function` performs exactly the sequence lock, `DRBG_get_bytes(dest,
size)`, unlock, whether the draw succeeds or fails; it returns 0 when the draw
failed and `size` converted to `int` when it succeeded, which is `size` itself
when `size < 2 ^ 31` and `size - 2 ^ 32` otherwise. -/
theorem C9_lock_draw_unlock (size : Nat) (drbg : CHIP_ERROR) (hsize : size < 2 ^ 32) :
    (PlatformManagerImpl.uECC_RNG_Function size drbg).2 =
      [Call.sys_mutex_lock, Call.DRBG_get_bytes size, Call.sys_mutex_unlock] ∧
    (drbg ≠ CHIP_NO_ERROR → (PlatformManagerImpl.uECC_RNG_Function size drbg).1 = 0) ∧
    (drbg = CHIP_NO_ERROR → size < 2 ^ 31 →
      (PlatformManagerImpl.uECC_RNG_Function size drbg).1 = (size : Int)) ∧
    (drbg = CHIP_NO_ERROR → 2 ^ 31 ≤ size →
      (PlatformManagerImpl.uECC_RNG_Function size drbg).1 = (size : Int) - 2 ^ 32) := by
  have hmod : size % 4294967296 = size := Nat.mod_eq_of_lt (by simpa using hsize)
  refine ⟨?_, ?_, ?_, ?_⟩
  · simp [PlatformManagerImpl.uECC_RNG_Function, UINT32_MOD, hmod]
  · intro h
    simp [PlatformManagerImpl.uECC_RNG_Function, UINT32_MOD, toInt32, h]
  · intro h hlt
    have : size < 2147483648 := by omega
    simp [PlatformManagerImpl.uECC_RNG_Function, UINT32_MOD, toInt32, h, hmod, this]
  · intro h hge
    have : ¬ size < 2147483648 := by omega
    simp [PlatformManagerImpl.uECC_RNG_Function, UINT32_MOD, toInt32, h, hmod, this]

/-- Witness of C9 (amended): a successful draw of 32 bytes makes the three
calls lock, draw, unlock and returns 32. -/
theorem C9_lock_draw_unlock_witness :
    (PlatformManagerImpl.uECC_RNG_Function 32 CHIP_NO_ERROR).2 =
      [Call.sys_mutex_lock, Call.DRBG_get_bytes 32, Call.sys_mutex_unlock] ∧
    (PlatformManagerImpl.uECC_RNG_Function 32 CHIP_NO_ERROR).1 = 32 :=
  ⟨(C9_lock_draw_unlock 32 CHIP_NO_ERROR (by norm_num)).1,
    (C9_lock_draw_unlock 32 CHIP_NO_ERROR (by norm_num)).2.2.1 rfl (by norm_num)⟩

/-! ## Theorems about the entropy callback -/

/-- The loop of `app_get_random` started at index `i` appends one store per index
from `i` up to `aLen - 1`, in increasing order. -/
theorem app_get_random_loop_eq (rand : Nat → Nat) (aLen : Nat) (i : Nat)
    (writes : List (Nat × Nat)) :
    app_get_random.loop rand aLen i writes =
      writes ++ (List.range' i (aLen - i)).map (fun k => (k, rand k % 256)) := by
  generalize h : aLen - i = n
  induction n generalizing i writes with
  | zero =>
    unfold app_get_random.loop
    have : ¬ i < aLen := by omega
    simp [this]
  | succ n ih =>
    unfold app_get_random.loop
    have hlt : i < aLen := by omega
    have hn : aLen - (i + 1) = n := by omega
    rw [if_pos hlt, ih (i + 1) _ hn]
    simp [List.range'_succ]

/-- The stores of `app_entropy_source`: one per index below
`len mod 2 ^ 16`, in increasing order, while `*olen` receives `len` and the
return value is 0. -/
theorem app_entropy_source_eq (rand : Nat → Nat) (len : Nat) :
    app_entropy_source rand len =
      { ret := 0, olen := len,
        writes := (List.range (len % 2 ^ 16)).map (fun k => (k, rand k % 256)) } := by
  simp [app_entropy_source, app_get_random, app_get_random_loop_eq, UINT16_MOD,
    List.range_eq_range']

/-- C10, evaluated at the failing input `len = 65536`: for every sequence of
`rand()` values, `app_entropy_source` returns 0 and stores `65536` in `*olen`,
yet it writes no byte of `output` at all, so the number of bytes written (0)
differs from the reported `*olen`. -/
theorem C10_olen_exceeds_bytes_written (rand : Nat → Nat) :
    (app_entropy_source rand 65536).ret = 0 ∧
    (app_entropy_source rand 65536).olen = 65536 ∧
    (app_entropy_source rand 65536).writes = [] ∧
    (app_entropy_source rand 65536).writes.length ≠ (app_entropy_source rand 65536).olen := by
  rw [app_entropy_source_eq]
  simp

/-! ## Theorems about `HandleWFXSystemEvent` -/

/-- A `memcpy` of `n` bytes into the zeroed union succeeds when the source has
`n` bytes and the union is large enough, and the first `n` bytes of the result
are the first `n` bytes of the source. -/
theorem memcpy_zero_take (m n : Nat) (src : List (Fin 256)) (hsrc : n ≤ src.length)
    (hdst : n ≤ m) :
    ∃ d, memcpy (memset_zero m) src n = some d ∧ d.take n = src.take n := by
  refine ⟨src.take n ++ (memset_zero m).drop n, ?_, ?_⟩
  · simp [memcpy, memset_zero, hsrc, hdst]
  · have hlen : (src.take n).length = n := by simp [hsrc]
    rw [List.take_append_of_le_length (by omega)]
    simp

/-- C2: for each of the six recognized (origin, sub-event id) pairs and every
raw vendor event carrying that id (an object with at least as many bytes as the
slot), `HandleWFXSystemEvent` posts exactly one event, of type
`kWFXSystemEvent`, whose matching slot (`startupEvent`, `connectEvent`,
`disconnectEvent`, or `genericMsgEvent` for the three IP ids) equals the first
bytes of the vendor object byte for byte. -/
theorem C2_recognized_payload_copied (abi : WfxAbi) (eventData : sl_wfx_generic_message_t)
    (hwf : abi.WellFormed) :
    (eventData.header_id = abi.SL_WFX_STARTUP_IND_ID →
      abi.sizeof_startupEvent ≤ eventData.bytes.length →
      ∃ event, PlatformManagerImpl.HandleWFXSystemEvent abi abi.WIFI_EVENT eventData =
          some [Call.PostEvent event] ∧
        event.type = abi.kWFXSystemEvent ∧
        event.startupEvent abi = eventData.bytes.take abi.sizeof_startupEvent) ∧
    (eventData.header_id = abi.SL_WFX_CONNECT_IND_ID →
      abi.sizeof_connectEvent ≤ eventData.bytes.length →
      ∃ event, PlatformManagerImpl.HandleWFXSystemEvent abi abi.WIFI_EVENT eventData =
          some [Call.PostEvent event] ∧
        event.type = abi.kWFXSystemEvent ∧
        event.connectEvent abi = eventData.bytes.take abi.sizeof_connectEvent) ∧
    (eventData.header_id = abi.SL_WFX_DISCONNECT_IND_ID →
      abi.sizeof_disconnectEvent ≤ eventData.bytes.length →
      ∃ event, PlatformManagerImpl.HandleWFXSystemEvent abi abi.WIFI_EVENT eventData =
          some [Call.PostEvent event] ∧
        event.type = abi.kWFXSystemEvent ∧
        event.disconnectEvent abi = eventData.bytes.take abi.sizeof_disconnectEvent) ∧
    (eventData.header_id = abi.IP_EVENT_STA_GOT_IP →
      abi.sizeof_genericMsgEvent ≤ eventData.bytes.length →
      ∃ event, PlatformManagerImpl.HandleWFXSystemEvent abi abi.IP_EVENT eventData =
          some [Call.PostEvent event] ∧
        event.type = abi.kWFXSystemEvent ∧
        event.genericMsgEvent abi = eventData.bytes.take abi.sizeof_genericMsgEvent) ∧
    (eventData.header_id = abi.IP_EVENT_GOT_IP6 →
      abi.sizeof_genericMsgEvent ≤ eventData.bytes.length →
      ∃ event, PlatformManagerImpl.HandleWFXSystemEvent abi abi.IP_EVENT eventData =
          some [Call.PostEvent event] ∧
        event.type = abi.kWFXSystemEvent ∧
        event.genericMsgEvent abi = eventData.bytes.take abi.sizeof_genericMsgEvent) ∧
    (eventData.header_id = abi.IP_EVENT_STA_LOST_IP →
      abi.sizeof_genericMsgEvent ≤ eventData.bytes.length →
      ∃ event, PlatformManagerImpl.HandleWFXSystemEvent abi abi.IP_EVENT eventData =
          some [Call.PostEvent event] ∧
        event.type = abi.kWFXSystemEvent ∧
        event.genericMsgEvent abi = eventData.bytes.take abi.sizeof_genericMsgEvent) := by
  obtain ⟨hs, hc, hd, hg, hbase, hsc, hsd, hcd, _, _, _⟩ := hwf
  have hbase2 : ¬ abi.IP_EVENT = abi.WIFI_EVENT := fun h => hbase h.symm
  refine ⟨?_, ?_, ?_, ?_, ?_, ?_⟩
  · intro hid hlen
    obtain ⟨d, hd1, hd2⟩ := memcpy_zero_take abi.sizeof_data _ eventData.bytes hlen hs
    exact ⟨⟨abi.kWFXSystemEvent, abi.WIFI_EVENT, d⟩,
      by simp [PlatformManagerImpl.HandleWFXSystemEvent, hid, hd1],
      rfl, hd2⟩
  · intro hid hlen
    obtain ⟨d, hd1, hd2⟩ := memcpy_zero_take abi.sizeof_data _ eventData.bytes hlen hc
    have h1 : ¬ abi.SL_WFX_CONNECT_IND_ID = abi.SL_WFX_STARTUP_IND_ID := fun h => hsc h.symm
    exact ⟨⟨abi.kWFXSystemEvent, abi.WIFI_EVENT, d⟩,
      by simp [PlatformManagerImpl.HandleWFXSystemEvent, hid, hd1, h1],
      rfl, hd2⟩
  · intro hid hlen
    obtain ⟨d, hd1, hd2⟩ := memcpy_zero_take abi.sizeof_data _ eventData.bytes hlen hd
    have h1 : ¬ abi.SL_WFX_DISCONNECT_IND_ID = abi.SL_WFX_STARTUP_IND_ID := fun h => hsd h.symm
    have h2 : ¬ abi.SL_WFX_DISCONNECT_IND_ID = abi.SL_WFX_CONNECT_IND_ID := fun h => hcd h.symm
    exact ⟨⟨abi.kWFXSystemEvent, abi.WIFI_EVENT, d⟩,
      by simp [PlatformManagerImpl.HandleWFXSystemEvent, hid, hd1, h1, h2],
      rfl, hd2⟩
  · intro hid hlen
    obtain ⟨d, hd1, hd2⟩ := memcpy_zero_take abi.sizeof_data _ eventData.bytes hlen hg
    exact ⟨⟨abi.kWFXSystemEvent, abi.IP_EVENT, d⟩,
      by simp [PlatformManagerImpl.HandleWFXSystemEvent, hid, hd1, hbase2],
      rfl, hd2⟩
  · intro hid hlen
    obtain ⟨d, hd1, hd2⟩ := memcpy_zero_take abi.sizeof_data _ eventData.bytes hlen hg
    exact ⟨⟨abi.kWFXSystemEvent, abi.IP_EVENT, d⟩,
      by simp [PlatformManagerImpl.HandleWFXSystemEvent, hid, hd1, hbase2],
      rfl, hd2⟩
  · intro hid hlen
    obtain ⟨d, hd1, hd2⟩ := memcpy_zero_take abi.sizeof_data _ eventData.bytes hlen hg
    exact ⟨⟨abi.kWFXSystemEvent, abi.IP_EVENT, d⟩,
      by simp [PlatformManagerImpl.HandleWFXSystemEvent, hid, hd1, hbase2],
      rfl, hd2⟩

/-- C3: for every input whose (origin, sub-event id) pair is not one of the six
recognized pairs, `HandleWFXSystemEvent` makes exactly one call, `PostEvent`,
with an event of type `kWFXSystemEvent` whose payload bytes are all zero. -/
theorem C3_unrecognized_zero_payload (abi : WfxAbi) (eventBase : Nat)
    (eventData : sl_wfx_generic_message_t)
    (hwifi : eventBase = abi.WIFI_EVENT →
      eventData.header_id ≠ abi.SL_WFX_STARTUP_IND_ID ∧
      eventData.header_id ≠ abi.SL_WFX_CONNECT_IND_ID ∧
      eventData.header_id ≠ abi.SL_WFX_DISCONNECT_IND_ID)
    (hip : eventBase = abi.IP_EVENT →
      eventData.header_id ≠ abi.IP_EVENT_STA_GOT_IP ∧
      eventData.header_id ≠ abi.IP_EVENT_GOT_IP6 ∧
      eventData.header_id ≠ abi.IP_EVENT_STA_LOST_IP) :
    PlatformManagerImpl.HandleWFXSystemEvent abi eventBase eventData =
      some [Call.PostEvent
        { type := abi.kWFXSystemEvent, eventBase := eventBase,
          data := List.replicate abi.sizeof_data 0 }] := by
  unfold PlatformManagerImpl.HandleWFXSystemEvent
  by_cases h1 : eventBase = abi.WIFI_EVENT
  · obtain ⟨a, b, c⟩ := hwifi h1
    simp [h1, a, b, c, memset_zero]
  · by_cases h2 : eventBase = abi.IP_EVENT
    · obtain ⟨a, b, c⟩ := hip h2
      subst h2
      simp [h1, a, b, c, memset_zero]
    · simp [h1, h2, memset_zero]

/-- Witness of C2: a connect indication of seven bytes arriving with origin
`WIFI_EVENT` is posted once, with type `kWFXSystemEvent` and a `connectEvent`
slot equal to its first six bytes. -/
theorem C2_recognized_payload_copied_witness :
    ∃ event, PlatformManagerImpl.HandleWFXSystemEvent sampleAbi sampleAbi.WIFI_EVENT
        sampleConnectInd = some [Call.PostEvent event] ∧
      event.type = sampleAbi.kWFXSystemEvent ∧
      event.connectEvent sampleAbi = sampleConnectInd.bytes.take sampleAbi.sizeof_connectEvent :=
  (C2_recognized_payload_copied sampleAbi sampleConnectInd (by decide)).2.1
    (by decide) (by decide)

/-- Witness of C3: an indication with the undecoded id `0xCA` arriving with
origin `WIFI_EVENT` is posted once with an all-zero payload. -/
theorem C3_unrecognized_zero_payload_witness :
    PlatformManagerImpl.HandleWFXSystemEvent sampleAbi sampleAbi.WIFI_EVENT sampleReceivedInd =
      some [Call.PostEvent
        { type := sampleAbi.kWFXSystemEvent, eventBase := sampleAbi.WIFI_EVENT,
          data := List.replicate sampleAbi.sizeof_data 0 }] :=
  C3_unrecognized_zero_payload sampleAbi sampleAbi.WIFI_EVENT sampleReceivedInd
    (by decide) (by decide)

/-! ## Theorems about `MigrateCounterConfigs` -/

namespace Silabs

/-- A migration whose legacy key is absent leaves the store as it is. -/
theorem MigrateUint32_absent (old_key new_key : Nat) (nvm : Nvm) (h : nvm old_key = none) :
    MigrationManager.MigrateUint32 old_key new_key nvm = nvm := by
  simp [MigrationManager.MigrateUint32, h]

/-- After a migration the legacy key is absent. -/
theorem MigrateUint32_old_absent (old_key new_key : Nat) (nvm : Nvm) :
    MigrationManager.MigrateUint32 old_key new_key nvm old_key = none := by
  unfold MigrationManager.MigrateUint32
  cases h : nvm old_key with
  | none => simpa using h
  | some v => simp [Nvm.clear]

/-- A migration changes the store at most at its two keys. -/
theorem MigrateUint32_other (old_key new_key k : Nat) (nvm : Nvm) (h1 : k ≠ old_key)
    (h2 : k ≠ new_key) : MigrationManager.MigrateUint32 old_key new_key nvm k = nvm k := by
  unfold MigrationManager.MigrateUint32
  cases h : nvm old_key with
  | none => rfl
  | some v => simp [Nvm.clear, Nvm.write, h1, h2]

/-- A migration whose legacy key holds `v` stores `v` under the new key. -/
theorem MigrateUint32_moves (old_key new_key v : Nat) (nvm : Nvm) (hne : new_key ≠ old_key)
    (h : nvm old_key = some v) :
    MigrationManager.MigrateUint32 old_key new_key nvm new_key = some v := by
  simp [MigrationManager.MigrateUint32, h, Nvm.clear, Nvm.write, hne]

/-- C7: for every store state and pairwise distinct keys, running
`MigrateCounterConfigs` twice leaves the same store as running it once; after
one run both legacy keys are absent, a legacy boot count is found under
`kConfigKey_BootCount` and a legacy operational-hours count under
`kConfigKey_TotalOperationalHours`, and a new key whose legacy key was absent
keeps its value. -/
theorem C7_migrate_idempotent (c : SilabsConfig) (nvm : Nvm) (hk : c.DistinctKeys) :
    MigrateCounterConfigs c (MigrateCounterConfigs c nvm) = MigrateCounterConfigs c nvm ∧
    MigrateCounterConfigs c nvm (kOldConfigKey_BootCount c) = none ∧
    MigrateCounterConfigs c nvm (kOldConfigKey_TotalOperationalHours c) = none ∧
    (∀ v, nvm (kOldConfigKey_BootCount c) = some v →
      MigrateCounterConfigs c nvm c.kConfigKey_BootCount = some v) ∧
    (∀ v, nvm (kOldConfigKey_TotalOperationalHours c) = some v →
      MigrateCounterConfigs c nvm c.kConfigKey_TotalOperationalHours = some v) ∧
    (nvm (kOldConfigKey_BootCount c) = none →
      MigrateCounterConfigs c nvm c.kConfigKey_BootCount = nvm c.kConfigKey_BootCount) ∧
    (nvm (kOldConfigKey_TotalOperationalHours c) = none →
      MigrateCounterConfigs c nvm c.kConfigKey_TotalOperationalHours =
        nvm c.kConfigKey_TotalOperationalHours) := by
  obtain ⟨h12, h1a, h1b, h2a, h2b, hab⟩ := hk
  have hold1 : MigrateCounterConfigs c nvm (kOldConfigKey_BootCount c) = none := by
    unfold MigrateCounterConfigs
    rw [MigrateUint32_other _ _ _ _ h12 h1b]
    exact MigrateUint32_old_absent _ _ _
  have hold2 : MigrateCounterConfigs c nvm (kOldConfigKey_TotalOperationalHours c) = none := by
    unfold MigrateCounterConfigs
    exact MigrateUint32_old_absent _ _ _
  refine ⟨?_, hold1, hold2, ?_, ?_, ?_, ?_⟩
  · have step1 : MigrationManager.MigrateUint32 (kOldConfigKey_BootCount c)
        c.kConfigKey_BootCount (MigrateCounterConfigs c nvm) = MigrateCounterConfigs c nvm :=
      MigrateUint32_absent _ _ _ hold1
    show MigrationManager.MigrateUint32 (kOldConfigKey_TotalOperationalHours c)
        c.kConfigKey_TotalOperationalHours
        (MigrationManager.MigrateUint32 (kOldConfigKey_BootCount c) c.kConfigKey_BootCount
          (MigrateCounterConfigs c nvm)) = MigrateCounterConfigs c nvm
    rw [step1]
    exact MigrateUint32_absent _ _ _ hold2
  · intro v hv
    unfold MigrateCounterConfigs
    rw [MigrateUint32_other _ _ _ _ (Ne.symm h2a) hab]
    exact MigrateUint32_moves _ _ _ _ (Ne.symm h1a) hv
  · intro v hv
    unfold MigrateCounterConfigs
    refine MigrateUint32_moves _ _ _ _ (Ne.symm h2b) ?_
    rw [MigrateUint32_other _ _ _ _ (Ne.symm h12) h2a]
    exact hv
  · intro hnone
    unfold MigrateCounterConfigs
    rw [MigrateUint32_other _ _ _ _ (Ne.symm h2a) hab, MigrateUint32_absent _ _ _ hnone]
  · intro hnone
    unfold MigrateCounterConfigs
    have h1 : MigrationManager.MigrateUint32 (kOldConfigKey_BootCount c) c.kConfigKey_BootCount
        nvm (kOldConfigKey_TotalOperationalHours c) = none := by
      rw [MigrateUint32_other _ _ _ _ (Ne.symm h12) h2a]
      exact hnone
    rw [MigrateUint32_absent _ _ _ h1]
    exact MigrateUint32_other _ _ _ _ (Ne.symm h1b) (Ne.symm hab)

/-- Witness of C7: with the legacy boot count 5 and the new key absent, the new
key holds 5 after the first run of `MigrateCounterConfigs` and still 5 after
the second, and the legacy key is absent. -/
theorem C7_migrate_idempotent_witness :
    legacyBootCount5 sampleConfig.kConfigKey_BootCount = none ∧
    MigrateCounterConfigs sampleConfig legacyBootCount5 sampleConfig.kConfigKey_BootCount =
      some 5 ∧
    MigrateCounterConfigs sampleConfig (MigrateCounterConfigs sampleConfig legacyBootCount5)
      sampleConfig.kConfigKey_BootCount = some 5 ∧
    MigrateCounterConfigs sampleConfig legacyBootCount5
      (kOldConfigKey_BootCount sampleConfig) = none :=
  ⟨by decide,
    (C7_migrate_idempotent sampleConfig legacyBootCount5 (by decide)).2.2.2.1 5 (by decide),
    (congrFun (C7_migrate_idempotent sampleConfig legacyBootCount5 (by decide)).1 _).trans
      ((C7_migrate_idempotent sampleConfig legacyBootCount5 (by decide)).2.2.2.1 5 (by decide)),
    (C7_migrate_idempotent sampleConfig legacyBootCount5 (by decide)).2.1⟩

end Silabs

end DeviceLayer
end chip
